import Mathlib

/-!
Verification development for the autarco-scraper program (src/main.rs).

The program logs in to the My Autarco site, then loops: every 10 seconds it
wakes, checks whether the 300-second poll interval has elapsed since the last
successful update, and if so fetches the energy and power telemetry from two
API endpoints, combining them into a `Status` that is stored in a
mutex-guarded global read by the HTTP status endpoint.

The definitions below are a shallow embedding of that code: machine integers
become `Nat` with explicit wrapping where the source can overflow, fallible
operations become `Except`/`Option`, and the effects of one pass through the
update loop become a pure step function on an explicit state.
-/

deriving instance DecidableEq for Except

namespace Autarco

/-- The interval between data polls, in seconds (`POLL_INTERVAL` in main.rs). -/
def POLL_INTERVAL : Nat := 300

/-- The modulus of a Rust `u64`. -/
def U64_MOD : Nat := 2 ^ 64

/-- The largest value of a Rust `u32`. -/
def U32_MAX : Nat := 2 ^ 32 - 1

/-- The configuration for the My Autarco site (`struct Config` in main.rs):
exactly the fields `username`, `password` and `site_id`, all strings. -/
structure Config where
  username : String
  password : String
  site_id : String
deriving DecidableEq, Repr

/-- The field names of `struct Config`, in declaration order; these are the
keys the TOML deserialization of the configuration recognizes. -/
def configFields : List String := ["username", "password", "site_id"]

/-- The current photovoltaic invertor status (`struct Status` in main.rs).
All three fields are unsigned machine integers in the source (`u32`, `u32`,
`u64`); they are embedded as `Nat`, with range facts proved where relevant. -/
structure Status where
  current_w : Nat
  total_kwh : Nat
  last_updated : Nat
deriving DecidableEq, Repr

/-- The raw JSON numbers of the energy endpoint payload, before serde
deserializes them into the `u32` fields of `ApiEnergy`; a JSON number can be
negative or out of `u32` range, hence `Int`. -/
structure RawApiEnergy where
  pv_today : Int
  pv_month : Int
  pv_to_date : Int
deriving DecidableEq, Repr

/-- The raw JSON number of the power endpoint payload, before serde
deserializes it into the `u32` field of `ApiPower`. -/
structure RawApiPower where
  pv_now : Int
deriving DecidableEq, Repr

/-- The energy data returned by the energy API endpoint
(`struct ApiEnergy` in main.rs); all fields are `u32`. -/
structure ApiEnergy where
  pv_today : Nat
  pv_month : Nat
  pv_to_date : Nat
deriving DecidableEq, Repr

/-- The power data returned by the power API endpoint
(`struct ApiPower` in main.rs); the field is `u32`. -/
structure ApiPower where
  pv_now : Nat
deriving DecidableEq, Repr

/-- Serde deserialization of one JSON number into a `u32` field: it fails on a
negative value and on a value above `u32::MAX`. -/
def parseU32 (v : Int) : Option Nat :=
  if 0 ≤ v ∧ v ≤ (U32_MAX : Int) then some v.toNat else none

/-- Deserialization of the energy payload into `ApiEnergy`: every field must
parse as a `u32`, otherwise the whole payload is rejected. -/
def decodeApiEnergy (raw : RawApiEnergy) : Option ApiEnergy :=
  match parseU32 raw.pv_today, parseU32 raw.pv_month, parseU32 raw.pv_to_date with
  | some a, some b, some c => some ⟨a, b, c⟩
  | _, _, _ => none

/-- Deserialization of the power payload into `ApiPower`. -/
def decodeApiPower (raw : RawApiPower) : Option ApiPower :=
  match parseU32 raw.pv_now with
  | some n => some ⟨n⟩
  | none => none

/-- The errors a `reqwest` call in this program can produce: a transport
failure from `send()`, an error-status failure from `error_for_status()`
(carrying the HTTP status code), or a body-decode failure from `json()`. -/
inductive ReqError where
  | transport
  | status (code : Nat)
  | decode
deriving DecidableEq, Repr

/-- `reqwest::Error::status()`: the HTTP status code is available exactly for
errors generated by `error_for_status()`. -/
def ReqError.statusCode : ReqError → Option Nat
  | .status c => some c
  | _ => none

/-- The outcome of one HTTP request as the transport reports it: either
`send()` itself failed, or a response with a status code and a body arrived. -/
inductive HttpResult (α : Type) where
  | netErr
  | response (code : Nat) (body : α)
deriving DecidableEq, Repr

/-- One API fetch as performed in `update` (main.rs lines 128-140): `send()`
(`?` on transport error), then `error_for_status()` (an error for any 4xx or
5xx status), then `json()` (`?` on decode failure). -/
def fetchJson {α β : Type} (decode : α → Option β) : HttpResult α → Except ReqError β
  | .netErr => .error .transport
  | .response code body =>
    if 400 ≤ code ∧ code < 600 then .error (.status code)
    else
      match decode body with
      | some v => .ok v
      | none => .error .decode

/-- `login` (main.rs lines 106-116): posts the credentials and propagates only
the transport error of `send()`; the response, whatever its status code, is
never inspected, so any received response yields `Ok(())`. -/
def login : HttpResult Unit → Except ReqError Unit
  | .netErr => .error .transport
  | .response _ _ => .ok ()

/-- `update` (main.rs lines 122-148): fetch the energy endpoint, then the
power endpoint, with an early return on the first failure; only when both
succeed is a `Status` built, with `current_w` from this cycle's power payload,
`total_kwh` from this cycle's energy payload, and the given timestamp. -/
def update (energyHttp : HttpResult RawApiEnergy) (powerHttp : HttpResult RawApiPower)
    (last_updated : Nat) : Except ReqError Status :=
  match fetchJson decodeApiEnergy energyHttp with
  | .error e => .error e
  | .ok api_energy =>
    match fetchJson decodeApiPower powerHttp with
    | .error e => .error e
    | .ok api_power =>
      .ok { current_w := api_power.pv_now
            total_kwh := api_energy.pv_to_date
            last_updated := last_updated }

/-- Rust `u64` wrapping subtraction, for operands below `2 ^ 64`: the value of
`timestamp - last_updated` on main.rs line 172 when the release-mode binary
wraps instead of panicking. -/
def wrapSub64 (a b : Nat) : Nat := (a + U64_MOD - b) % U64_MOD

/-- The mutable state of `update_loop`: the `last_updated` local (the poll
clock) and the mutex-guarded global `STATUS` cell (the status cache). -/
structure LoopState where
  last_updated : Nat
  cache : Option Status
deriving DecidableEq, Repr

/-- What the environment supplies during one pass of the update loop: the
current timestamp, the transport outcomes of the two API requests and of the
re-login request (used only on the 401 path), and whether the supervisor's
shutdown broadcast has already happened by this tick. The loop body
(main.rs lines 164-194) reads no shutdown or quit signal, so `updateLoopTick`
never looks at `shutdownSignaled`; the field only lets that independence be
stated. -/
structure TickEnv where
  timestamp : Nat
  energyHttp : HttpResult RawApiEnergy
  powerHttp : HttpResult RawApiPower
  reloginHttp : HttpResult Unit
  shutdownSignaled : Bool
deriving DecidableEq, Repr

/-- The result of one pass of the update loop: either the loop continues with
a new state, or an error propagated out of `update_loop` with `?`, ending the
task. -/
inductive StepResult where
  | next (s : LoopState)
  | fatal (e : ReqError)
deriving DecidableEq, Repr

/-- One pass of the body of the `loop` in `update_loop`
(main.rs lines 164-194): if less than `POLL_INTERVAL` has elapsed since
`last_updated` (u64 subtraction), `continue`; otherwise run `update`; on
success store the new status and advance `last_updated`; on a 401 error
re-login (`?` on its failure — the error propagates and the task dies) and
`continue`; on any other error log and `continue`. -/
def updateLoopTick (s : LoopState) (env : TickEnv) : StepResult :=
  if wrapSub64 env.timestamp s.last_updated < POLL_INTERVAL then
    .next s
  else
    match update env.energyHttp env.powerHttp env.timestamp with
    | .ok status =>
      .next { last_updated := env.timestamp, cache := some status }
    | .error e =>
      if e.statusCode = some 401 then
        match login env.reloginHttp with
        | .ok _ => .next s
        | .error e2 => .fatal e2
      else
        .next s

/-- Iterating the loop body over a sequence of tick environments, stopping at
the first fatal error. -/
def runLoop : LoopState → List TickEnv → StepResult
  | s, [] => .next s
  | s, env :: rest =>
    match updateLoopTick s env with
    | .next s2 => runLoop s2 rest
    | .fatal e => .fatal e

/-- The state the loop starts in: `last_updated = 0` (line 163) and an empty
`STATUS` cell (line 81). -/
def initialLoopState : LoopState := { last_updated := 0, cache := none }

/-- The `status` route handler (main.rs lines 197-202): lock the `STATUS`
mutex and return its contents (wrapped in `Json`, which preserves the value)
— `None` when no update has ever succeeded. -/
def statusEndpoint (cache : Option Status) : Option Status :=
  cache.map (fun st => st)

/-- The result of the startup part of `update_loop`. -/
inductive StartResult where
  | started (s : LoopState)
  | fatalStart
deriving DecidableEq, Repr

/-- The startup of `update_loop` (main.rs lines 154-163): `load_config` and
the initial `login`, both with `?` — either failure ends the task before the
loop starts, which the supervisor turns into process shutdown. -/
def updateLoopStart (loadResult : Except Unit Config) (loginHttp : HttpResult Unit) :
    StartResult :=
  match loadResult with
  | .error _ => .fatalStart
  | .ok _ =>
    match login loginHttp with
    | .error _ => .fatalStart
    | .ok _ => .started initialLoopState

/-- Which task the `select!` in `main` (lines 214-222) sees finish first. -/
inductive FirstToFinish where
  | serverDone (ok : Bool)
  | pollerDone (ok : Bool)
deriving DecidableEq, Repr

/-- What `main` does to the other task after `select!` resolves. -/
structure SupervisorOutcome where
  serverNotified : Bool
  pollerSignaled : Bool
deriving DecidableEq, Repr

/-- The `select!` in `main` (lines 214-222): if the updater task finishes
first, `shutdown.notify()` tells Rocket to stop; if Rocket finishes first,
`main` simply returns — no stop signal of any kind is sent to the update
loop (there is no channel to it), which is then torn down with the runtime. -/
def mainSelect : FirstToFinish → SupervisorOutcome
  | .serverDone _ => { serverNotified := false, pollerSignaled := false }
  | .pollerDone _ => { serverNotified := true, pollerSignaled := false }

/-! Helper lemmas shared by the claim theorems. -/

/-- When no underflow occurs, the wrapping u64 subtraction agrees with the
mathematical difference. -/
theorem wrapSub64_eq_sub (a b : Nat) (hb : b ≤ a) (ha : a < U64_MOD) :
    wrapSub64 a b = a - b := by
  have h1 : a + U64_MOD - b = (a - b) + U64_MOD := by omega
  have h2 : a - b < U64_MOD := by omega
  simp [wrapSub64, h1, Nat.add_mod_right, Nat.mod_eq_of_lt h2]

/-- `update` returns a status exactly when both endpoint fetches succeed, and
then every field of the status comes from that same cycle. -/
theorem update_ok_iff (eh : HttpResult RawApiEnergy) (ph : HttpResult RawApiPower)
    (l : Nat) (st : Status) :
    update eh ph l = .ok st ↔
      ∃ ae ap, fetchJson decodeApiEnergy eh = .ok ae ∧
        fetchJson decodeApiPower ph = .ok ap ∧
        st = { current_w := ap.pv_now, total_kwh := ae.pv_to_date, last_updated := l } := by
  unfold update
  cases h1 : fetchJson decodeApiEnergy eh with
  | error e => simp [h1]
  | ok ae =>
    cases h2 : fetchJson decodeApiPower ph with
    | error e => simp [h2]
    | ok ap =>
      constructor
      · intro h
        exact ⟨ae, ap, rfl, rfl, by simpa using h.symm⟩
      · rintro ⟨ae2, ap2, hae, hap, hst⟩
        obtain rfl : ae = ae2 := by simpa using hae
        obtain rfl : ap = ap2 := by simpa using hap
        simp [hst]

/-- A successfully parsed `u32` field is within `u32` range. -/
theorem parseU32_le (v : Int) (n : Nat) (h : parseU32 v = some n) : n ≤ U32_MAX := by
  unfold parseU32 at h
  by_cases hc : 0 ≤ v ∧ v ≤ (U32_MAX : Int)
  · simp [hc] at h
    omega
  · simp [hc] at h

/-- Fields of a decoded power payload are within `u32` range. -/
theorem decodeApiPower_le (raw : RawApiPower) (ap : ApiPower)
    (h : decodeApiPower raw = some ap) : ap.pv_now ≤ U32_MAX := by
  unfold decodeApiPower at h
  cases hp : parseU32 raw.pv_now with
  | none => simp [hp] at h
  | some n =>
    simp [hp] at h
    cases h
    exact parseU32_le raw.pv_now n hp

/-- Fields of a decoded energy payload are within `u32` range. -/
theorem decodeApiEnergy_le (raw : RawApiEnergy) (ae : ApiEnergy)
    (h : decodeApiEnergy raw = some ae) : ae.pv_to_date ≤ U32_MAX := by
  unfold decodeApiEnergy at h
  cases h1 : parseU32 raw.pv_today with
  | none => simp [h1] at h
  | some a =>
    cases h2 : parseU32 raw.pv_month with
    | none => simp [h1, h2] at h
    | some b =>
      cases h3 : parseU32 raw.pv_to_date with
      | none => simp [h1, h2, h3] at h
      | some c =>
        simp [h1, h2, h3] at h
        cases h
        exact parseU32_le raw.pv_to_date c h3

/-- Unfolding `runLoop` on the empty tick list. -/
theorem runLoop_nil (s : LoopState) : runLoop s [] = .next s := rfl

/-- Unfolding `runLoop` on a first tick. -/
theorem runLoop_cons (s : LoopState) (env : TickEnv) (rest : List TickEnv) :
    runLoop s (env :: rest) =
      match updateLoopTick s env with
      | .next s2 => runLoop s2 rest
      | .fatal e => .fatal e := rfl

/-- A value produced by `fetchJson` decoded successfully from some body. -/
theorem fetchJson_ok {α β : Type} (decode : α → Option β) (hr : HttpResult α) (v : β)
    (h : fetchJson decode hr = .ok v) :
    ∃ code body, hr = .response code body ∧ decode body = some v := by
  cases hr with
  | netErr => simp [fetchJson] at h
  | response code body =>
    refine ⟨code, body, rfl, ?_⟩
    unfold fetchJson at h
    by_cases hc : 400 ≤ code ∧ code < 600
    · simp [hc] at h
    · simp [hc] at h
      cases hd : decode body with
      | none => simp [hd] at h
      | some w => simpa [hd] using h

/-! Concrete tick environments used by the claim theorems and witnesses. -/

/-- A tick in which the update fails with a 401 and the re-login also fails
(network error on the re-login request). -/
def reauthFailTick : TickEnv :=
  { timestamp := 300
    energyHttp := .response 401 { pv_today := 0, pv_month := 0, pv_to_date := 0 }
    powerHttp := .netErr
    reloginHttp := .netErr
    shutdownSignaled := false }

/-- A tick in which the update fails with a 401 and the re-login succeeds. -/
def reauth401Tick : TickEnv :=
  { timestamp := 300
    energyHttp := .response 401 { pv_today := 0, pv_month := 0, pv_to_date := 0 }
    powerHttp := .netErr
    reloginHttp := .response 200 ()
    shutdownSignaled := false }

/-- A tick whose fetch fails with a network error on the energy request. -/
def transientFailTick : TickEnv :=
  { timestamp := 300
    energyHttp := .netErr
    powerHttp := .netErr
    reloginHttp := .netErr
    shutdownSignaled := false }

/-- A fully successful first fetch cycle: power 500 W, total 1200 kWh, at
timestamp 300. -/
def goodTick1 : TickEnv :=
  { timestamp := 300
    energyHttp := .response 200 { pv_today := 10, pv_month := 100, pv_to_date := 1200 }
    powerHttp := .response 200 { pv_now := 500 }
    reloginHttp := .netErr
    shutdownSignaled := false }

/-- A fully successful second fetch cycle: power 480 W, total 1201 kWh, at
timestamp 600. -/
def goodTick2 : TickEnv :=
  { timestamp := 600
    energyHttp := .response 200 { pv_today := 11, pv_month := 101, pv_to_date := 1201 }
    powerHttp := .response 200 { pv_now := 480 }
    reloginHttp := .netErr
    shutdownSignaled := false }

/-- A tick whose energy payload carries a negative number for `pv_to_date`. -/
def negativeEnergyTick : TickEnv :=
  { timestamp := 300
    energyHttp := .response 200 { pv_today := 1, pv_month := 2, pv_to_date := -5 }
    powerHttp := .response 200 { pv_now := 500 }
    reloginHttp := .netErr
    shutdownSignaled := false }

/-! Claim theorems. -/

/-- C1 counterexample: the claim says a failed re-authentication after a 401
is treated as transient and never escapes the poller as a task failure, but on
this concrete tick (401 from the energy endpoint, network failure on the
re-login) the loop body propagates the re-login error with `?`, ending the
update task fatally. -/
theorem autarco_C1_cex :
    updateLoopTick initialLoopState reauthFailTick = .fatal .transport := by
  decide

/-- C1 amended: when the poll interval has elapsed and `update` fails, a 401
whose re-login fails makes the update task die with the re-login error
(propagating to the supervisor), while a non-401 error is handled inside the
loop with the state unchanged. -/
theorem autarco_C1_reauth_failure_fatal (s : LoopState) (env : TickEnv) (e : ReqError)
    (helig : POLL_INTERVAL ≤ wrapSub64 env.timestamp s.last_updated)
    (hupd : update env.energyHttp env.powerHttp env.timestamp = .error e) :
    (∀ e2, e.statusCode = some 401 → login env.reloginHttp = .error e2 →
        updateLoopTick s env = .fatal e2) ∧
    (e.statusCode ≠ some 401 → updateLoopTick s env = .next s) := by
  have hnl : ¬ wrapSub64 env.timestamp s.last_updated < POLL_INTERVAL :=
    Nat.not_lt.mpr helig
  constructor
  · intro e2 h401 hlog
    simp [updateLoopTick, hnl, hupd, h401, hlog]
  · intro hne
    simp [updateLoopTick, hnl, hupd, hne]

/-- C1 witness: the amended theorem evaluated on the concrete failed-re-login
tick. -/
theorem autarco_C1_reauth_failure_fatal_witness :
    updateLoopTick initialLoopState reauthFailTick = .fatal .transport :=
  (autarco_C1_reauth_failure_fatal initialLoopState reauthFailTick (.status 401)
    (by decide) (by decide)).1 .transport (by decide) (by decide)

/-- C2: the update loop never observes the shutdown broadcast — its step is
the same whether or not the signal has been sent, a tick taken with the signal
already broadcast still continues the loop, and the `select!` in `main` sends
a stop notification only to the Rocket server (when the poller finishes
first), never to the update loop. -/
theorem autarco_C2_no_shutdown_observation :
    (∀ (s : LoopState) (env : TickEnv) (b : Bool),
        updateLoopTick s { env with shutdownSignaled := b } = updateLoopTick s env) ∧
    updateLoopTick initialLoopState
      { timestamp := 5, energyHttp := .netErr, powerHttp := .netErr,
        reloginHttp := .netErr, shutdownSignaled := true } = .next initialLoopState ∧
    mainSelect (.serverDone true) = { serverNotified := false, pollerSignaled := false } ∧
    mainSelect (.pollerDone false) = { serverNotified := true, pollerSignaled := false } := by
  refine ⟨?_, by decide, rfl, rfl⟩
  intro s env b
  cases env
  rfl

/-- C7 counterexample: `poll_interval_seconds` is not among the fields of
`struct Config`, so the configuration does not recognize it. -/
theorem autarco_C7_cex : ¬ ("poll_interval_seconds" ∈ configFields) := by
  decide

/-- C7 amended: the configuration recognizes exactly `username`, `password`
and `site_id`; the poll interval is the hard-coded constant
`POLL_INTERVAL = 300` seconds (not configurable); and a configuration load
failure (missing or malformed file) aborts `update_loop` at startup. -/
theorem autarco_C7_config_fields (loginHttp : HttpResult Unit) :
    configFields = ["username", "password", "site_id"] ∧
    POLL_INTERVAL = 300 ∧
    updateLoopStart (.error ()) loginHttp = .fatalStart :=
  ⟨rfl, rfl, rfl⟩

/-- C9: for u64 operands, the elapsed-time subtraction on line 172 equals the
true difference exactly when `last_updated ≤ timestamp`; when the clock has
stepped backwards (`timestamp < last_updated`) the wrapping subtraction
underflows and its value differs from the true (negative) elapsed time, so
the interval decision is only well-defined under that precondition. -/
theorem autarco_C9_interval_underflow (t l : Nat) (ht : t < U64_MOD) (_hl : l < U64_MOD) :
    (l ≤ t → wrapSub64 t l = t - l) ∧
    (t < l → wrapSub64 t l = t + U64_MOD - l ∧
      ((wrapSub64 t l : Int) ≠ (t : Int) - (l : Int))) := by
  have hU : U64_MOD = 18446744073709551616 := by norm_num [U64_MOD]
  constructor
  · intro h
    exact wrapSub64_eq_sub t l h ht
  · intro h
    have h1 : t + U64_MOD - l < U64_MOD := by omega
    have h2 : wrapSub64 t l = t + U64_MOD - l := by
      unfold wrapSub64
      exact Nat.mod_eq_of_lt h1
    refine ⟨h2, ?_⟩
    rw [h2]
    omega

/-- C9 witness: a pre-epoch clock collapsed to timestamp 0 with
`last_updated = 300` underflows the subtraction. -/
theorem autarco_C9_interval_underflow_witness :
    wrapSub64 0 300 = 0 + U64_MOD - 300 ∧
      ((wrapSub64 0 300 : Int) ≠ (0 : Int) - (300 : Int)) :=
  (autarco_C9_interval_underflow 0 300 (by norm_num [U64_MOD])
    (by norm_num [U64_MOD])).2 (by norm_num)

/-- C10: `login` succeeds for any received HTTP response, whatever its status
code (it fails only on a transport error), so startup with wrong credentials
(for instance a 401 response to the login post) still reaches the loop, and
an invalid session only surfaces later as an `error_for_status` 401 on a
fetch, where `statusCode` reports it as unauthorized. -/
theorem autarco_C10_login_ignores_status (code : Nat) (body : Unit) (cfg : Config)
    (raw : RawApiEnergy) :
    login (.response code body) = .ok () ∧
    login .netErr = .error .transport ∧
    updateLoopStart (.ok cfg) (.response code body) = .started initialLoopState ∧
    fetchJson decodeApiEnergy (.response 401 raw) = .error (.status 401) ∧
    (ReqError.status 401).statusCode = some 401 := by
  refine ⟨rfl, rfl, rfl, ?_, rfl⟩
  norm_num [fetchJson]

/-- C3: when the poll interval has elapsed and `update` fails with a
non-401 error (network or parse failure on either value), the loop continues
with the state unchanged — the cache is untouched and `last_updated` is not
advanced — and every later tick whose timestamp has not gone backwards is
still past the poll interval, so the fetch is retried promptly. -/
theorem autarco_C3_transient_keeps_state (s : LoopState) (env : TickEnv) (e : ReqError)
    (helig : POLL_INTERVAL ≤ wrapSub64 env.timestamp s.last_updated)
    (hupd : update env.energyHttp env.powerHttp env.timestamp = .error e)
    (h401 : e.statusCode ≠ some 401) :
    updateLoopTick s env = .next s ∧
    ∀ t2, s.last_updated ≤ env.timestamp → env.timestamp ≤ t2 → t2 < U64_MOD →
      POLL_INTERVAL ≤ wrapSub64 t2 s.last_updated := by
  constructor
  · have hnl : ¬ wrapSub64 env.timestamp s.last_updated < POLL_INTERVAL :=
      Nat.not_lt.mpr helig
    simp [updateLoopTick, hnl, hupd, h401]
  · intro t2 h1 h2 h3
    have htlt : env.timestamp < U64_MOD := Nat.lt_of_le_of_lt h2 h3
    have e1 := wrapSub64_eq_sub env.timestamp s.last_updated h1 htlt
    have e2 := wrapSub64_eq_sub t2 s.last_updated (le_trans h1 h2) h3
    rw [e1] at helig
    rw [e2]
    omega

/-- C3 witness: a network failure at timestamp 300 leaves the initial state
unchanged and the tick at timestamp 310 is already past the interval again. -/
theorem autarco_C3_transient_keeps_state_witness :
    updateLoopTick initialLoopState transientFailTick = .next initialLoopState ∧
    POLL_INTERVAL ≤ wrapSub64 310 initialLoopState.last_updated :=
  ⟨(autarco_C3_transient_keeps_state initialLoopState transientFailTick .transport
      (by decide) (by decide) (by decide)).1,
   (autarco_C3_transient_keeps_state initialLoopState transientFailTick .transport
      (by decide) (by decide) (by decide)).2 310 (by decide) (by decide) (by decide)⟩

/-- C4: whenever one pass of the loop changes the status cache, both the
energy fetch and the power fetch of that same pass succeeded, and the new
cache entry is exactly the reading assembled from this cycle's power payload,
this cycle's energy payload and this cycle's timestamp — never a partial or
mixed reading. -/
theorem autarco_C4_cache_needs_both (s : LoopState) (env : TickEnv) (s2 : LoopState)
    (hstep : updateLoopTick s env = .next s2) (hch : s2.cache ≠ s.cache) :
    ∃ ae ap, fetchJson decodeApiEnergy env.energyHttp = .ok ae ∧
      fetchJson decodeApiPower env.powerHttp = .ok ap ∧
      s2.cache = some { current_w := ap.pv_now, total_kwh := ae.pv_to_date,
                        last_updated := env.timestamp } := by
  unfold updateLoopTick at hstep
  by_cases hiv : wrapSub64 env.timestamp s.last_updated < POLL_INTERVAL
  · rw [if_pos hiv] at hstep
    injection hstep with h
    subst h
    exact absurd rfl hch
  · rw [if_neg hiv] at hstep
    cases hu : update env.energyHttp env.powerHttp env.timestamp with
    | ok st =>
      simp only [hu] at hstep
      injection hstep with h
      obtain ⟨ae, ap, hae, hap, hst⟩ := (update_ok_iff _ _ _ st).mp hu
      refine ⟨ae, ap, hae, hap, ?_⟩
      rw [← h, hst]
    | error e =>
      simp only [hu] at hstep
      by_cases h4 : e.statusCode = some 401
      · rw [if_pos h4] at hstep
        cases hl : login env.reloginHttp with
        | ok u =>
          simp only [hl] at hstep
          injection hstep with h
          subst h
          exact absurd rfl hch
        | error e2 =>
          simp only [hl] at hstep
          cases hstep
      · rw [if_neg h4] at hstep
        injection hstep with h
        subst h
        exact absurd rfl hch

/-- C4 witness: the successful cycle at timestamp 300 changes the cache, and
the theorem recovers both payloads and the exact assembled reading. -/
theorem autarco_C4_cache_needs_both_witness :
    ∃ ae ap, fetchJson decodeApiEnergy goodTick1.energyHttp = .ok ae ∧
      fetchJson decodeApiPower goodTick1.powerHttp = .ok ap ∧
      (LoopState.mk 300 (some ⟨500, 1200, 300⟩)).cache =
        some { current_w := ap.pv_now, total_kwh := ae.pv_to_date,
               last_updated := goodTick1.timestamp } :=
  autarco_C4_cache_needs_both initialLoopState goodTick1
    ⟨300, some ⟨500, 1200, 300⟩⟩ (by decide) (by decide)

/-- C5: when the interval has elapsed and the fetch cycle fails with a 401,
a successful re-login keeps the loop alive with its state unchanged (so
`last_updated` still marks the interval as elapsed), and a following tick
whose cycle succeeds stores that cycle's reading — fetching resumes with no
process restart. -/
theorem autarco_C5_reauth_resumes (s : LoopState) (env env2 : TickEnv) (e : ReqError)
    (st : Status)
    (helig : POLL_INTERVAL ≤ wrapSub64 env.timestamp s.last_updated)
    (hupd : update env.energyHttp env.powerHttp env.timestamp = .error e)
    (h401 : e.statusCode = some 401)
    (hlogin : login env.reloginHttp = .ok ())
    (helig2 : POLL_INTERVAL ≤ wrapSub64 env2.timestamp s.last_updated)
    (hupd2 : update env2.energyHttp env2.powerHttp env2.timestamp = .ok st) :
    updateLoopTick s env = .next s ∧
    runLoop s [env, env2] = .next { last_updated := env2.timestamp, cache := some st } := by
  have hnl : ¬ wrapSub64 env.timestamp s.last_updated < POLL_INTERVAL :=
    Nat.not_lt.mpr helig
  have hnl2 : ¬ wrapSub64 env2.timestamp s.last_updated < POLL_INTERVAL :=
    Nat.not_lt.mpr helig2
  have h1 : updateLoopTick s env = .next s := by
    simp [updateLoopTick, hnl, hupd, h401, hlogin]
  have h2 : updateLoopTick s env2 =
      .next { last_updated := env2.timestamp, cache := some st } := by
    simp [updateLoopTick, hnl2, hupd2]
  refine ⟨h1, ?_⟩
  calc runLoop s [env, env2]
      = runLoop s [env2] := by rw [runLoop_cons, h1]
    _ = .next { last_updated := env2.timestamp, cache := some st } := by
        rw [runLoop_cons, h2]
        rfl

/-- C5 witness: a 401 cycle with successful re-login at timestamp 300
followed by a successful cycle at timestamp 600 ends with the cycle-2
reading stored. -/
theorem autarco_C5_reauth_resumes_witness :
    updateLoopTick initialLoopState reauth401Tick = .next initialLoopState ∧
    runLoop initialLoopState [reauth401Tick, goodTick2] =
      .next { last_updated := 600,
              cache := some { current_w := 480, total_kwh := 1201, last_updated := 600 } } :=
  autarco_C5_reauth_resumes initialLoopState reauth401Tick goodTick2 (.status 401)
    { current_w := 480, total_kwh := 1201, last_updated := 600 }
    (by decide) (by decide) (by decide) (by decide) (by decide) (by decide)

/-- C6: before any successful fetch the read endpoint returns `none`; after a
first successful cycle the cache holds exactly that cycle's reading and the
endpoint returns it; after a later successful cycle the cache holds exactly
the later reading — the endpoint never returns a mix of fields from two
cycles, because the cache always holds one whole reading of one cycle. -/
theorem autarco_C6_read_reflects_cycles (env1 env2 : TickEnv) (st1 st2 : Status)
    (helig1 : POLL_INTERVAL ≤ wrapSub64 env1.timestamp initialLoopState.last_updated)
    (hupd1 : update env1.energyHttp env1.powerHttp env1.timestamp = .ok st1)
    (helig2 : POLL_INTERVAL ≤ wrapSub64 env2.timestamp env1.timestamp)
    (hupd2 : update env2.energyHttp env2.powerHttp env2.timestamp = .ok st2) :
    statusEndpoint initialLoopState.cache = none ∧
    runLoop initialLoopState [env1] =
      .next { last_updated := env1.timestamp, cache := some st1 } ∧
    statusEndpoint (some st1) = some st1 ∧
    runLoop initialLoopState [env1, env2] =
      .next { last_updated := env2.timestamp, cache := some st2 } ∧
    statusEndpoint (some st2) = some st2 := by
  have hnl1 : ¬ wrapSub64 env1.timestamp initialLoopState.last_updated < POLL_INTERVAL :=
    Nat.not_lt.mpr helig1
  have hnl2 : ¬ wrapSub64 env2.timestamp env1.timestamp < POLL_INTERVAL :=
    Nat.not_lt.mpr helig2
  have h1 : updateLoopTick initialLoopState env1 =
      .next { last_updated := env1.timestamp, cache := some st1 } := by
    simp [updateLoopTick, hnl1, hupd1]
  have h2 : updateLoopTick { last_updated := env1.timestamp, cache := some st1 } env2 =
      .next { last_updated := env2.timestamp, cache := some st2 } := by
    simp [updateLoopTick, hnl2, hupd2]
  refine ⟨rfl, ?_, rfl, ?_, rfl⟩
  · rw [runLoop_cons, h1]
    rfl
  · calc runLoop initialLoopState [env1, env2]
        = runLoop { last_updated := env1.timestamp, cache := some st1 } [env2] := by
          rw [runLoop_cons, h1]
      _ = .next { last_updated := env2.timestamp, cache := some st2 } := by
          rw [runLoop_cons, h2]
          rfl

/-- C6 witness: the spec's example — cycle 1 yields `current_w = 500`,
`total_kwh = 1200` at T1 = 300, cycle 2 yields `current_w = 480`,
`total_kwh = 1201` at T2 = 600; reads return none, then exactly the cycle-1
reading, then exactly the cycle-2 reading. -/
theorem autarco_C6_read_reflects_cycles_witness :
    statusEndpoint initialLoopState.cache = none ∧
    runLoop initialLoopState [goodTick1] =
      .next { last_updated := 300,
              cache := some { current_w := 500, total_kwh := 1200, last_updated := 300 } } ∧
    statusEndpoint (some { current_w := 500, total_kwh := 1200, last_updated := 300 }) =
      some { current_w := 500, total_kwh := 1200, last_updated := 300 } ∧
    runLoop initialLoopState [goodTick1, goodTick2] =
      .next { last_updated := 600,
              cache := some { current_w := 480, total_kwh := 1201, last_updated := 600 } } ∧
    statusEndpoint (some { current_w := 480, total_kwh := 1201, last_updated := 600 }) =
      some { current_w := 480, total_kwh := 1201, last_updated := 600 } :=
  autarco_C6_read_reflects_cycles goodTick1 goodTick2
    { current_w := 500, total_kwh := 1200, last_updated := 300 }
    { current_w := 480, total_kwh := 1201, last_updated := 600 }
    (by decide) (by decide) (by decide) (by decide)

/-- C8: a received (non-error-status) energy payload that fails `u32`
deserialization — a negative or out-of-range field — makes the whole cycle a
transient failure: the loop continues with the cache and poll clock
unchanged; and every reading `update` ever produces has both telemetry
fields within `u32` range (being `Nat`, they are non-negative by
construction). -/
theorem autarco_C8_negative_rejected (s : LoopState) (env : TickEnv) (code : Nat)
    (raw : RawApiEnergy)
    (helig : POLL_INTERVAL ≤ wrapSub64 env.timestamp s.last_updated)
    (hhttp : env.energyHttp = .response code raw)
    (hcode : ¬ (400 ≤ code ∧ code < 600))
    (hbad : decodeApiEnergy raw = none) :
    updateLoopTick s env = .next s ∧
    ∀ eh ph l st, update eh ph l = .ok st →
      st.current_w ≤ U32_MAX ∧ st.total_kwh ≤ U32_MAX := by
  constructor
  · have hfe : fetchJson decodeApiEnergy env.energyHttp = .error .decode := by
      rw [hhttp]
      simp [fetchJson, hcode, hbad]
    have hupd : update env.energyHttp env.powerHttp env.timestamp = .error .decode := by
      unfold update
      rw [hfe]
    have hnl : ¬ wrapSub64 env.timestamp s.last_updated < POLL_INTERVAL :=
      Nat.not_lt.mpr helig
    simp [updateLoopTick, hnl, hupd, ReqError.statusCode]
  · intro eh ph l st hok
    obtain ⟨ae, ap, hae, hap, hst⟩ := (update_ok_iff eh ph l st).mp hok
    obtain ⟨c1, b1, he1, hd1⟩ := fetchJson_ok _ eh ae hae
    obtain ⟨c2, b2, he2, hd2⟩ := fetchJson_ok _ ph ap hap
    subst hst
    exact ⟨decodeApiPower_le b2 ap hd2, decodeApiEnergy_le b1 ae hd1⟩

/-- C8 witness: a payload with `pv_to_date = -5` at timestamp 300 is rejected
and the state is unchanged; the reading of the good cycle is within `u32`
bounds. -/
theorem autarco_C8_negative_rejected_witness :
    updateLoopTick initialLoopState negativeEnergyTick = .next initialLoopState ∧
    ((Status.mk 500 1200 300).current_w ≤ U32_MAX ∧
      (Status.mk 500 1200 300).total_kwh ≤ U32_MAX) :=
  ⟨(autarco_C8_negative_rejected initialLoopState negativeEnergyTick 200
      { pv_today := 1, pv_month := 2, pv_to_date := -5 }
      (by decide) (by decide) (by decide) (by decide)).1,
   (autarco_C8_negative_rejected initialLoopState negativeEnergyTick 200
      { pv_today := 1, pv_month := 2, pv_to_date := -5 }
      (by decide) (by decide) (by decide) (by decide)).2
      goodTick1.energyHttp goodTick1.powerHttp 300 ⟨500, 1200, 300⟩ (by decide)⟩

end Autarco
